import Mathlib

/-!
Verification of the flox catalog client (`src/cli/flox-rust-sdk/src/providers/catalog.rs`)
against its natural-language specification.

The Rust module is shallowly embedded: pure conversions become Lean
functions, the async `resolve`/`search` operations become functions over an
explicit transport oracle (a function from the request to either a typed
response or a transport error), and fallible code returns `Except`.
Types generated by the external `catalog_api_v1` crate (not part of this
repository snapshot) are modelled from the spec where their behaviour
matters and are marked as such.
-/

/-- A platform identifier string, e.g. an OS/architecture triple
(`crate::data::System` is a `String` alias). -/
abbrev System := String

/-- Embeds `DEFAULT_CATALOG_URL` constant from `catalog.rs`. -/
def DEFAULT_CATALOG_URL : String := "https://flox-catalog.flox.dev"

/-- Embeds `NIXPKGS_CATALOG` constant from `catalog.rs`. -/
def NIXPKGS_CATALOG : String := "nixpkgs"

/-- Modelled from the spec: the conversion error type of the generated
`catalog_api_v1::types::error` module (the generated crate is not under
`src/`); it carries a diagnostic message. -/
structure ConversionError where
  msg : String
deriving DecidableEq, Repr

/-- Modelled from the spec: the system enum of the generated wire schema.
The spec calls systems "platform identifier (OS + architecture) strings"
with `"x86_64-linux"` supported and `"unsupported-os"` unsupported; the
supported set is the four platforms flox targets. -/
inductive SystemEnum where
  | aarch64_darwin
  | aarch64_linux
  | x86_64_darwin
  | x86_64_linux
deriving DecidableEq, Repr

/-- Modelled from the spec: rendering a wire system enum back to its
platform identifier string (the `to_string` used by the conversions in
`catalog.rs`). -/
def SystemEnum.render : SystemEnum → String
  | .aarch64_darwin => "aarch64-darwin"
  | .aarch64_linux => "aarch64-linux"
  | .x86_64_darwin => "x86_64-darwin"
  | .x86_64_linux => "x86_64-linux"

/-- Modelled from the spec: the fallible `TryFrom<String>` conversion of the
generated system enum, failing exactly on strings that are not supported
platform identifiers. -/
def SystemEnum.fromString (s : String) : Except ConversionError SystemEnum :=
  if s = "aarch64-darwin" then .ok .aarch64_darwin
  else if s = "aarch64-linux" then .ok .aarch64_linux
  else if s = "x86_64-darwin" then .ok .x86_64_darwin
  else if s = "x86_64-linux" then .ok .x86_64_linux
  else .error ⟨s⟩

/-- A validated search term of the generated wire schema. The grammar
itself lives in the generated crate; the embedding keeps the validated
payload and takes the validator as an explicit parameter of `search`. -/
structure SearchTerm where
  term : String
deriving DecidableEq, Repr

/-- The structured error body of the catalog service schema
(`api_types::ErrorResponse`); its fields are opaque to this core. -/
structure ErrorResponse where
  detail : String
deriving DecidableEq, Repr

/-- The transport error type (`catalog_api_v1::Error`, a progenitor-style
client error): `errorResponse` is the one variant carrying the service's
structured error body; every other variant is a transport-level anomaly. -/
inductive APIError (E : Type) where
  | invalidRequest (msg : String)
  | communicationError (msg : String)
  | invalidResponsePayload (msg : String)
  | unexpectedResponse (status : Nat)
  | errorResponse (body : E)
deriving DecidableEq, Repr

/-- Embeds `PackageDescriptor` is a pass-through alias of a schema type, opaque to
this core. -/
structure PackageDescriptor where
  data : String
deriving DecidableEq, Repr

/-- Domain `PackageGroup` from `catalog.rs`. -/
structure PackageGroup where
  descriptors : List PackageDescriptor
  name : String
  system : System
deriving DecidableEq, Repr

/-- Wire `api_types::PackageGroup`. -/
structure ApiPackageGroup where
  descriptors : List PackageDescriptor
  name : String
  system : SystemEnum
  stability : Option String
deriving DecidableEq, Repr

/-- Wire `api_types::PackageGroups` request body. -/
structure ApiPackageGroups where
  items : List ApiPackageGroup
deriving DecidableEq, Repr

/-- Embeds `PackageResolutionInfo` is a pass-through alias of a schema type,
opaque to this core. -/
structure PackageResolutionInfo where
  data : String
deriving DecidableEq, Repr

/-- Wire `api_types::CatalogPage`. -/
structure ApiCatalogPage where
  packages : List PackageResolutionInfo
  page : Int
  url : String
deriving DecidableEq, Repr

/-- Domain `CatalogPage` from `catalog.rs`. -/
structure CatalogPage where
  packages : List PackageResolutionInfo
  page : Int
  url : String
deriving DecidableEq, Repr

/-- Wire `api_types::ResolvedPackageGroupInput`. -/
structure ResolvedPackageGroupInput where
  name : String
  pages : List ApiCatalogPage
  system : SystemEnum
deriving DecidableEq, Repr

/-- Wire response body of the resolve call (`api_types::ResolvedPackageGroups`). -/
structure ResolvedPackageGroups where
  items : List ResolvedPackageGroupInput
deriving DecidableEq, Repr

/-- Domain `ResolvedPackageGroup` from `catalog.rs`. -/
structure ResolvedPackageGroup where
  name : String
  pages : List CatalogPage
  system : System
deriving DecidableEq, Repr

/-- Wire `PackageInfoApiInput`, one search hit as returned by the service. -/
structure PackageInfoApiInput where
  attr_path : String
  pname : String
  version : String
  description : String
  license : String
  system : SystemEnum
deriving DecidableEq, Repr

/-- Wire response body of the search call (`api_types::PackageSearchResultInput`). -/
structure PackageSearchResultInput where
  items : List PackageInfoApiInput
  total_count : Int
deriving DecidableEq, Repr

/-- Domain `SearchResult` (`crate::models::search::SearchResult`), with
exactly the fields the conversion in `catalog.rs` constructs. -/
structure SearchResult where
  input : String
  system : System
  rel_path : List String
  pname : Option String
  version : Option String
  description : Option String
  license : Option String
deriving DecidableEq, Repr

/-- Domain `SearchResults` (`crate::models::search::SearchResults`). -/
structure SearchResults where
  results : List SearchResult
  count : Option Nat
deriving DecidableEq, Repr

/-- Embeds `CatalogClientError` from `catalog.rs`. -/
inductive CatalogClientError where
  | UnsupportedSystem (source : ConversionError)
  | UnexpectedError (source : APIError ErrorResponse)
deriving DecidableEq, Repr

/-- Embeds `SearchError` from `catalog.rs`. -/
inductive SearchError where
  | Search (source : APIError ErrorResponse)
  | NegativeNumberOfResults
  | InvalidSearchTerm (source : ConversionError)
  | ShortAttributePath (path : String)
  | CatalogClientError (source : CatalogClientError)
deriving DecidableEq, Repr

/-- Embeds `ResolveError` from `catalog.rs`. -/
inductive ResolveError where
  | Resolve (source : APIError ErrorResponse)
  | CatalogClientError (source : CatalogClientError)
deriving DecidableEq, Repr

/-- Embeds `CatalogClientError::is_unexpected_error`: true for any `APIError`
variant other than `ErrorResponse`. -/
def CatalogClientError.is_unexpected_error (e : APIError ErrorResponse) : Bool :=
  match e with
  | .errorResponse _ => false
  | _ => true

/-- Embeds `TryFrom<PackageGroup> for api_types::PackageGroup`: converts the
system, fails with `UnsupportedSystem` on a bad system, copies the other
fields, sets `stability` to `None`. -/
def PackageGroup.tryIntoApi (g : PackageGroup) : Except CatalogClientError ApiPackageGroup :=
  match SystemEnum.fromString g.system with
  | .error e => .error (.UnsupportedSystem e)
  | .ok sys => .ok { descriptors := g.descriptors, name := g.name, system := sys, stability := none }

/-- Embeds `From<api_types::CatalogPage> for CatalogPage`: direct field copy. -/
def ApiCatalogPage.toDomain (p : ApiCatalogPage) : CatalogPage :=
  { packages := p.packages, page := p.page, url := p.url }

/-- Embeds `TryFrom<api_types::ResolvedPackageGroupInput> for ResolvedPackageGroup`:
always succeeds, renders the system back to its string, maps pages
element-wise. -/
def ResolvedPackageGroupInput.tryIntoDomain (r : ResolvedPackageGroupInput) :
    Except CatalogClientError ResolvedPackageGroup :=
  .ok { name := r.name
        pages := r.pages.map ApiCatalogPage.toDomain
        system := r.system.render }

/-- The `attr_path.split('.')` of the search-hit conversion, embedded at
the character level: split the string's characters on every occurrence of
the dot, keeping empty segments, then rebuild each segment as a string. -/
def splitAttrPath (s : String) : List String :=
  (s.toList.splitOn '.').map (fun cs => String.mk cs)

/-- Embeds `TryFrom<PackageInfoApiInput> for SearchResult`: fixed `input`, system
rendered to string, `attr_path` split on the dot character, remaining
fields wrapped in `Some`. -/
def PackageInfoApiInput.tryIntoDomain (p : PackageInfoApiInput) :
    Except SearchError SearchResult :=
  .ok { input := NIXPKGS_CATALOG
        system := p.system.render
        rel_path := splitAttrPath p.attr_path
        pname := some p.pname
        version := some p.version
        description := some p.description
        license := some p.license }

/-- The embedding of `iter().map(f).collect::<Result<Vec<_>, _>>()`:
apply the fallible conversion to each element in order, short-circuiting
on the first failure. -/
def collectResults {ε α β : Type} (f : α → Except ε β) : List α → Except ε (List β)
  | [] => .ok []
  | a :: t =>
    match f a with
    | .error e => .error e
    | .ok b =>
      match collectResults f t with
      | .error e => .error e
      | .ok bs => .ok (b :: bs)

/-- The generated transport handle (`catalog_api_v1::Client`), modelled by
the only state this core reads from it: the base URL it was constructed
with. -/
structure APIClient where
  baseUrl : String
deriving DecidableEq, Repr

/-- Embeds `APIClient::new`: binds the transport handle to a base URL. -/
def APIClient.new (baseUrl : String) : APIClient :=
  { baseUrl := baseUrl }

/-- Embeds `CatalogClient` from `catalog.rs`: a wrapper around the generated
transport handle. -/
structure CatalogClient where
  client : APIClient
deriving DecidableEq, Repr

/-- Embeds `CatalogClient::new()`: takes no parameters and binds the transport to
`DEFAULT_CATALOG_URL`. -/
def CatalogClient.new : CatalogClient :=
  { client := APIClient.new DEFAULT_CATALOG_URL }

/-- Embeds `impl Default for CatalogClient`: delegates to `new`. -/
def CatalogClient.defaultImpl : CatalogClient :=
  CatalogClient.new

/-- The query parameters of the generated search call, in the order
`search_api_v1_catalog_search_get` receives them. -/
structure SearchQuery where
  catalog : Option String
  page : Option Nat
  limit : Option Nat
  search_term : SearchTerm
  system : SystemEnum
deriving DecidableEq, Repr

/-- Embeds `CatalogClient::resolve`, with the remote transport call passed as an
explicit oracle: convert every group to wire form (short-circuiting on the
first failure), issue the single batched call, classify any transport
error, then convert the response groups back. -/
def CatalogClient.resolve
    (remote : ApiPackageGroups → Except (APIError ErrorResponse) ResolvedPackageGroups)
    (package_groups : List PackageGroup) :
    Except ResolveError (List ResolvedPackageGroup) := do
  let items ← match collectResults PackageGroup.tryIntoApi package_groups with
    | .error e => .error (ResolveError.CatalogClientError e)
    | .ok items => .ok items
  let resolved ← match remote { items := items } with
    | .error e =>
        if CatalogClientError.is_unexpected_error e then
          .error (ResolveError.CatalogClientError (.UnexpectedError e))
        else
          .error (ResolveError.Resolve e)
    | .ok r => .ok r
  match collectResults ResolvedPackageGroupInput.tryIntoDomain resolved.items with
  | .error e => .error (ResolveError.CatalogClientError e)
  | .ok groups => .ok groups

/-- Embeds `CatalogClient::search`, with the generated search-term validator and
the remote transport call passed as explicit oracles, in the evaluation
order of the Rust call site: validate the term, convert the system, issue
the call with the fixed `nixpkgs` catalog and no stability filter,
classify any transport error, convert each hit, and convert the reported
total (failing on a negative total). -/
def CatalogClient.search
    (termCheck : String → Except ConversionError SearchTerm)
    (remote : SearchQuery → Except (APIError ErrorResponse) PackageSearchResultInput)
    (search_term : String) (system : System) (limit : Nat) :
    Except SearchError SearchResults := do
  let term ← match termCheck search_term with
    | .error e => .error (SearchError.InvalidSearchTerm e)
    | .ok t => .ok t
  let sys ← match SystemEnum.fromString system with
    | .error e => .error (SearchError.CatalogClientError (.UnsupportedSystem e))
    | .ok s => .ok s
  let api_search_result ←
    match remote { catalog := some NIXPKGS_CATALOG, page := none, limit := some limit,
                   search_term := term, system := sys } with
    | .error e =>
        if CatalogClientError.is_unexpected_error e then
          .error (SearchError.CatalogClientError (.UnexpectedError e))
        else
          .error (SearchError.Search e)
    | .ok r => .ok r
  let results ← collectResults PackageInfoApiInput.tryIntoDomain api_search_result.items
  let count ← if api_search_result.total_count < 0 then
      .error SearchError.NegativeNumberOfResults
    else
      .ok api_search_result.total_count.toNat
  .ok { results := results, count := some count }

/-- Modelled from the spec: known-good server echo logic for resolve — the
service echoes the request group's `name` and `system` into the response
group, attaching whatever pages it resolved. -/
def serverEcho (g : ApiPackageGroup) (pages : List ApiCatalogPage) : ResolvedPackageGroupInput :=
  { name := g.name, pages := pages, system := g.system }

@[simp]
lemma except_ok_bind {ε α β : Type} (a : α) (f : α → Except ε β) :
    (Except.ok a >>= f) = f a := rfl

@[simp]
lemma except_error_bind {ε α β : Type} (e : ε) (f : α → Except ε β) :
    ((Except.error e : Except ε α) >>= f) = Except.error e := rfl

/-- Any failure of the group conversion is an `UnsupportedSystem`. -/
lemma tryIntoApi_error_shape (g : PackageGroup) (e : CatalogClientError)
    (h : g.tryIntoApi = .error e) : ∃ ce, e = .UnsupportedSystem ce := by
  unfold PackageGroup.tryIntoApi at h
  rcases hs : SystemEnum.fromString g.system with ce | v
  · rw [hs] at h
    exact ⟨ce, by injection h with h2; exact h2.symm⟩
  · rw [hs] at h
    cases h

/-- If some member of the batch has an unconvertible system, the whole
batch conversion fails with an `UnsupportedSystem` error. -/
lemma collect_tryIntoApi_error_of_mem (g : PackageGroup) (err : ConversionError)
    (hsys : SystemEnum.fromString g.system = .error err) :
    ∀ l : List PackageGroup, g ∈ l →
      ∃ ce, collectResults PackageGroup.tryIntoApi l =
        .error (CatalogClientError.UnsupportedSystem ce) := by
  intro l
  induction l with
  | nil => intro hmem; simp at hmem
  | cons a t ih =>
    intro hmem
    rcases ha : a.tryIntoApi with e | x
    · obtain ⟨ce, rfl⟩ := tryIntoApi_error_shape a e ha
      exact ⟨ce, by simp [collectResults, ha]⟩
    · rcases List.mem_cons.mp hmem with rfl | hmem2
      · exfalso
        unfold PackageGroup.tryIntoApi at ha
        rw [hsys] at ha
        cases ha
      · obtain ⟨ce, hce⟩ := ih hmem2
        exact ⟨ce, by simp [collectResults, ha, hce]⟩

/-- Converting search hits never fails: the batch conversion always
returns `ok`. -/
lemma collect_hits_ok (l : List PackageInfoApiInput) :
    ∃ rs, collectResults PackageInfoApiInput.tryIntoDomain l = Except.ok rs := by
  induction l with
  | nil => exact ⟨[], rfl⟩
  | cons a t ih =>
    obtain ⟨rs, h⟩ := ih
    refine ⟨{ input := NIXPKGS_CATALOG, system := a.system.render,
              rel_path := splitAttrPath a.attr_path, pname := some a.pname,
              version := some a.version, description := some a.description,
              license := some a.license } :: rs, ?_⟩
    simp [collectResults, h, PackageInfoApiInput.tryIntoDomain]

/-- Rendering is a left inverse of parsing for supported systems. -/
lemma fromString_render (s : String) (v : SystemEnum)
    (h : SystemEnum.fromString s = .ok v) : v.render = s := by
  unfold SystemEnum.fromString at h
  split_ifs at h with h1 h2 h3 h4
  · injection h with hv; subst hv; rw [h1]; rfl
  · injection h with hv; subst hv; rw [h2]; rfl
  · injection h with hv; subst hv; rw [h3]; rfl
  · injection h with hv; subst hv; rw [h4]; rfl

/-- C1: every transport/service error of a resolve or search call is
classified by a binary decision: the structured `errorResponse` body maps
to the domain-specific variant (`ResolveError.Resolve` for resolve,
`SearchError.Search` for search) and every other error shape maps to
`CatalogClientError.UnexpectedError` wrapping the underlying cause; the
classifier flags an error as unexpected exactly when it is not an
`errorResponse`, so no error is routed to the other branch. -/
theorem error_classification_binary
    (e : APIError ErrorResponse)
    (pgs : List PackageGroup) (items : List ApiPackageGroup)
    (hpgs : collectResults PackageGroup.tryIntoApi pgs = .ok items)
    (termCheck : String → Except ConversionError SearchTerm)
    (t : String) (term : SearchTerm) (ht : termCheck t = .ok term)
    (sys : System) (sv : SystemEnum)
    (hsys : SystemEnum.fromString sys = .ok sv) (limit : Nat) :
    CatalogClient.resolve (fun _ => .error e) pgs =
        .error (if CatalogClientError.is_unexpected_error e then
            ResolveError.CatalogClientError (.UnexpectedError e)
          else ResolveError.Resolve e)
    ∧ CatalogClient.search termCheck (fun _ => .error e) t sys limit =
        .error (if CatalogClientError.is_unexpected_error e then
            SearchError.CatalogClientError (.UnexpectedError e)
          else SearchError.Search e)
    ∧ (CatalogClientError.is_unexpected_error e = false ↔
        ∃ b, e = .errorResponse b) := by
  refine ⟨?_, ?_, ?_⟩
  · unfold CatalogClient.resolve
    cases hb : CatalogClientError.is_unexpected_error e <;> simp [hpgs, hb]
  · unfold CatalogClient.search
    cases hb : CatalogClientError.is_unexpected_error e <;> simp [ht, hsys, hb]
  · cases e <;> simp [CatalogClientError.is_unexpected_error]

/-- Witness for C1: a connection failure during resolve is classified as
`UnexpectedError`, not as the structured `Resolve` variant. -/
theorem error_classification_binary_witness :
    CatalogClient.resolve
        (fun _ => .error (.communicationError "connection refused")) [] =
      .error (ResolveError.CatalogClientError
        (.UnexpectedError (.communicationError "connection refused"))) := by
  have h := error_classification_binary
    (.communicationError "connection refused") [] [] rfl
    (fun s => .ok ⟨s⟩) "hello" ⟨"hello"⟩ rfl
    "x86_64-linux" .x86_64_linux rfl 10
  simpa [CatalogClientError.is_unexpected_error] using h.1

/-- C2: if any group in the batch has an unsupported system, `resolve`
fails with `ResolveError.CatalogClientError.UnsupportedSystem`, and the
result is the same for every transport oracle (no remote call is issued
and no partial results are produced). -/
theorem resolve_unsupported_system_short_circuit
    (pgs : List PackageGroup) (g : PackageGroup) (err : ConversionError)
    (hg : g ∈ pgs) (hsys : SystemEnum.fromString g.system = .error err) :
    ∃ ce, ∀ remote, CatalogClient.resolve remote pgs =
      .error (ResolveError.CatalogClientError (.UnsupportedSystem ce)) := by
  obtain ⟨ce, hce⟩ := collect_tryIntoApi_error_of_mem g err hsys pgs hg
  refine ⟨ce, fun remote => ?_⟩
  unfold CatalogClient.resolve
  simp [hce]

/-- Witness for C2: a single group with system `"unsupported-os"` aborts
resolve with `UnsupportedSystem` for every transport oracle. -/
theorem resolve_unsupported_system_short_circuit_witness :
    ∃ ce, ∀ remote, CatalogClient.resolve remote
        [{ descriptors := [], name := "g", system := "unsupported-os" }] =
      .error (ResolveError.CatalogClientError (.UnsupportedSystem ce)) :=
  resolve_unsupported_system_short_circuit
    [{ descriptors := [], name := "g", system := "unsupported-os" }]
    { descriptors := [], name := "g", system := "unsupported-os" }
    ⟨"unsupported-os"⟩ (by simp) rfl

/-- C3: for a search whose transport returns a response, a negative
`total_count` makes `search` fail with `NegativeNumberOfResults` (it is
not clamped), and a non-negative `total_count` is returned exactly as the
`count` of the `SearchResults`. -/
theorem search_total_count_exact
    (termCheck : String → Except ConversionError SearchTerm)
    (remote : SearchQuery → Except (APIError ErrorResponse) PackageSearchResultInput)
    (t : String) (term : SearchTerm) (sys : System) (sv : SystemEnum)
    (limit : Nat) (resp : PackageSearchResultInput)
    (ht : termCheck t = .ok term)
    (hsys : SystemEnum.fromString sys = .ok sv)
    (hremote : ∀ q, remote q = .ok resp) :
    (resp.total_count < 0 →
      CatalogClient.search termCheck remote t sys limit =
        .error SearchError.NegativeNumberOfResults)
    ∧ (0 ≤ resp.total_count →
      ∃ res n, CatalogClient.search termCheck remote t sys limit = .ok res ∧
        res.count = some n ∧ (n : Int) = resp.total_count) := by
  obtain ⟨rs, hrs⟩ := collect_hits_ok resp.items
  constructor
  · intro hneg
    unfold CatalogClient.search
    simp [ht, hsys, hremote, hrs, hneg]
  · intro hpos
    have hnneg : ¬resp.total_count < 0 := not_lt.mpr hpos
    refine ⟨{ results := rs, count := some resp.total_count.toNat },
      resp.total_count.toNat, ?_, rfl, Int.toNat_of_nonneg hpos⟩
    unfold CatalogClient.search
    simp [ht, hsys, hremote, hrs, hnneg]

/-- Witness for C3: a response reporting `total_count = -3` makes search
fail with `NegativeNumberOfResults`. -/
theorem search_total_count_exact_witness :
    CatalogClient.search (fun s => .ok ⟨s⟩)
        (fun _ => .ok { items := [], total_count := -3 })
        "hello" "x86_64-linux" 10 =
      .error SearchError.NegativeNumberOfResults :=
  (search_total_count_exact (fun s => .ok ⟨s⟩)
      (fun _ => .ok { items := [], total_count := -3 })
      "hello" ⟨"hello"⟩ "x86_64-linux" .x86_64_linux 10
      { items := [], total_count := -3 }
      rfl rfl (fun _ => rfl)).1 (by norm_num)

/-- C4: converting a wire search hit always succeeds and yields exactly:
`input` fixed to `"nixpkgs"`, `system` copied (rendered to its string),
`rel_path` the split of `attr_path` on the dot character, and `pname`,
`version`, `description`, `license` wrapped verbatim in `some`; the split
has at least one segment and rejoining the segments with dots restores
`attr_path` exactly, so segment order and count are preserved. -/
theorem search_hit_conversion_exact (p : PackageInfoApiInput) :
    p.tryIntoDomain = .ok { input := NIXPKGS_CATALOG
                            system := p.system.render
                            rel_path := splitAttrPath p.attr_path
                            pname := some p.pname
                            version := some p.version
                            description := some p.description
                            license := some p.license }
    ∧ splitAttrPath p.attr_path ≠ []
    ∧ ['.'].intercalate (p.attr_path.toList.splitOn '.') = p.attr_path.toList := by
  refine ⟨rfl, ?_, List.intercalate_splitOn p.attr_path.toList '.'⟩
  unfold splitAttrPath
  simp only [ne_eq, List.map_eq_nil_iff]
  exact List.splitOnP_ne_nil _ _

/-- C5: a `PackageGroup` with a supported system converts to wire form
with `name` and `descriptors` unchanged and `stability` absent, and the
server echo of that wire group converts back with `name` and `system`
round-tripped unchanged; the conversion fails only on unsupported
systems. -/
theorem package_group_roundtrip (g : PackageGroup) (v : SystemEnum)
    (h : SystemEnum.fromString g.system = .ok v) :
    g.tryIntoApi = .ok { descriptors := g.descriptors, name := g.name,
                         system := v, stability := none }
    ∧ ∀ pages,
        (serverEcho { descriptors := g.descriptors, name := g.name,
                      system := v, stability := none } pages).tryIntoDomain =
          .ok { name := g.name, pages := pages.map ApiCatalogPage.toDomain,
                system := g.system } := by
  constructor
  · unfold PackageGroup.tryIntoApi
    rw [h]
  · intro pages
    unfold serverEcho ResolvedPackageGroupInput.tryIntoDomain
    simp [fromString_render g.system v h]

/-- Witness for C5: the spec scenario group named `"toolchain"` on
`"x86_64-linux"` converts successfully with `stability` absent. -/
theorem package_group_roundtrip_witness :
    PackageGroup.tryIntoApi
        { descriptors := [⟨"d1"⟩, ⟨"d2"⟩], name := "toolchain",
          system := "x86_64-linux" } =
      .ok { descriptors := [⟨"d1"⟩, ⟨"d2"⟩], name := "toolchain",
            system := .x86_64_linux, stability := none } :=
  (package_group_roundtrip
    { descriptors := [⟨"d1"⟩, ⟨"d2"⟩], name := "toolchain",
      system := "x86_64-linux" } .x86_64_linux rfl).1

/-- C6: a search term rejected by the service's term grammar makes
`search` fail with `InvalidSearchTerm` for every transport oracle and
every system (even an unsupported one), so term validation happens before
system validation and before any network call. -/
theorem search_invalid_term_short_circuit
    (termCheck : String → Except ConversionError SearchTerm)
    (remote : SearchQuery → Except (APIError ErrorResponse) PackageSearchResultInput)
    (t : String) (sys : System) (limit : Nat) (e : ConversionError)
    (h : termCheck t = .error e) :
    CatalogClient.search termCheck remote t sys limit =
      .error (SearchError.InvalidSearchTerm e) := by
  unfold CatalogClient.search
  simp [h]

/-- Witness for C6: a rejected term fails with `InvalidSearchTerm` even
though the system is also unsupported and the transport would succeed. -/
theorem search_invalid_term_short_circuit_witness :
    CatalogClient.search (fun _ => .error ⟨"bad term"⟩)
        (fun _ => .ok { items := [], total_count := 0 })
        "***" "unsupported-os" 10 =
      .error (SearchError.InvalidSearchTerm ⟨"bad term"⟩) :=
  search_invalid_term_short_circuit (fun _ => .error ⟨"bad term"⟩)
    (fun _ => .ok { items := [], total_count := 0 })
    "***" "unsupported-os" 10 ⟨"bad term"⟩ rfl

/-- C7: converting a wire resolved group always succeeds, copying `name`,
rendering `system` back to its string, and mapping `pages` element-wise in
response order, where each page conversion is a direct field copy that
always succeeds. -/
theorem resolved_group_conversion_total (r : ResolvedPackageGroupInput)
    (p : ApiCatalogPage) :
    r.tryIntoDomain = .ok { name := r.name,
                            pages := r.pages.map ApiCatalogPage.toDomain,
                            system := r.system.render }
    ∧ p.toDomain = { packages := p.packages, page := p.page, url := p.url } :=
  ⟨rfl, rfl⟩

/-- C8: no combination of term validator, transport oracle, search term,
system, limit and path ever makes `search` return
`SearchError.ShortAttributePath`: the reserved variant is unreachable. -/
theorem search_short_attribute_path_unreachable
    (termCheck : String → Except ConversionError SearchTerm)
    (remote : SearchQuery → Except (APIError ErrorResponse) PackageSearchResultInput)
    (t : String) (sys : System) (limit : Nat) (s : String) :
    CatalogClient.search termCheck remote t sys limit ≠
      .error (SearchError.ShortAttributePath s) := by
  unfold CatalogClient.search
  rcases ht : termCheck t with e | term
  · simp [ht]
  · rcases hs : SystemEnum.fromString sys with e | sv
    · simp [ht, hs]
    · rcases hr : remote { catalog := some NIXPKGS_CATALOG, page := none, limit := some limit, search_term := term, system := sv } with e | resp
      · cases hb : CatalogClientError.is_unexpected_error e <;>
          simp [ht, hs, hr, hb]
      · obtain ⟨rs, hrs⟩ := collect_hits_ok resp.items
        by_cases hneg : resp.total_count < 0 <;> simp [ht, hs, hr, hrs, hneg]

/-- C9 counterexample: every constructor the module provides for the live
client (`new` and the `Default` impl) is nullary and yields the production
endpoint, so the base URL cannot be overridden at construction time as the
claim states. -/
theorem catalog_client_url_not_overridable :
    ([CatalogClient.new, CatalogClient.defaultImpl].all
      (fun c => c.client.baseUrl == DEFAULT_CATALOG_URL)) = true := rfl

/-- C9 amended: the live client's base URL is the production catalog
endpoint `"https://flox-catalog.flox.dev"`; `CatalogClient::new` takes no
parameters, so no override is exposed at construction (the underlying
transport constructor does take a URL, but this module always passes the
default), and once constructed the endpoint is immutable. -/
theorem catalog_client_default_url :
    CatalogClient.new = { client := APIClient.new DEFAULT_CATALOG_URL }
    ∧ DEFAULT_CATALOG_URL = "https://flox-catalog.flox.dev"
    ∧ CatalogClient.defaultImpl = CatalogClient.new :=
  ⟨rfl, rfl, rfl⟩

/-- C10: every successful search returns a `SearchResults` whose `count`
field is present (`some`), never `none`, even though its type is
optional. -/
theorem search_count_always_present
    (termCheck : String → Except ConversionError SearchTerm)
    (remote : SearchQuery → Except (APIError ErrorResponse) PackageSearchResultInput)
    (t : String) (sys : System) (limit : Nat) (r : SearchResults)
    (h : CatalogClient.search termCheck remote t sys limit = .ok r) :
    ∃ n, r.count = some n := by
  unfold CatalogClient.search at h
  rcases ht : termCheck t with e | term
  · simp [ht] at h
  · rcases hs : SystemEnum.fromString sys with e | sv
    · simp [ht, hs] at h
    · rcases hr : remote { catalog := some NIXPKGS_CATALOG, page := none, limit := some limit, search_term := term, system := sv } with e | resp
      · cases hb : CatalogClientError.is_unexpected_error e <;>
          simp [ht, hs, hr, hb] at h
      · obtain ⟨rs, hrs⟩ := collect_hits_ok resp.items
        by_cases hneg : resp.total_count < 0
        · simp [ht, hs, hr, hrs, hneg] at h
        · simp [ht, hs, hr, hrs, hneg] at h
          exact ⟨resp.total_count.toNat, by rw [← h]⟩

/-- Witness for C10: a successful search against an empty response has
`count = some 0`. -/
theorem search_count_always_present_witness :
    ∃ n, SearchResults.count { results := [], count := some 0 } = some n :=
  search_count_always_present (fun s => .ok ⟨s⟩)
    (fun _ => .ok { items := [], total_count := 0 })
    "hello" "x86_64-linux" 10 { results := [], count := some 0 } rfl
